import Mathlib

/-!
Verification of `src/apply-green-tint.py`.

The script loads one image, converts it to RGBA, replaces the three color
channels by the constant target color 0x08CB00 = (8, 203, 0) while keeping the
alpha channel, saves the result back to the original path (PNG) and to a second
path (ICO), printing one confirmation line after each save.

The embedding below models the pixel-level semantics of the PIL calls the
script uses (`convert('RGBA')`, `split`, `Image.new('L', size, c)`,
`Image.merge('RGBA', ...)`, `save`) and the straight-line execution of the
script over an abstract filesystem.
-/

namespace GreenTint

/-- One RGBA pixel: four 8-bit channels (values are 8-bit in the source;
the claims do no channel arithmetic, so plain naturals suffice). -/
structure RGBA where
  r : Nat
  g : Nat
  b : Nat
  a : Nat
  deriving DecidableEq

/-- A single-channel (`'L'` mode) plane, as produced by `split` and
`Image.new('L', size, c)`: dimensions plus row-major per-pixel data. -/
structure Channel where
  width : Nat
  height : Nat
  data : List Nat
  deriving DecidableEq

/-- An RGBA image: dimensions plus row-major pixel list. -/
structure PILImage where
  width : Nat
  height : Nat
  pixels : List RGBA
  deriving DecidableEq

/-- A well-formed image has exactly width*height pixels. -/
abbrev PILImage.Wf (m : PILImage) : Prop :=
  m.pixels.length = m.width * m.height

/-- `img.size` in PIL: the pair (width, height). -/
def PILImage.size (m : PILImage) : Nat × Nat :=
  (m.width, m.height)

/-- `img.split()` (line 9): the four single-channel planes r, g, b, a. -/
def PILImage.split (m : PILImage) : Channel × Channel × Channel × Channel :=
  (⟨m.width, m.height, m.pixels.map RGBA.r⟩,
   ⟨m.width, m.height, m.pixels.map RGBA.g⟩,
   ⟨m.width, m.height, m.pixels.map RGBA.b⟩,
   ⟨m.width, m.height, m.pixels.map RGBA.a⟩)

/-- Target color 08CB00 (line 12). -/
def target_r : Nat := 0x08

/-- Target color 08CB00 (line 12). -/
def target_g : Nat := 0xCB

/-- Target color 08CB00 (line 12). -/
def target_b : Nat := 0x00

/-- `Image.new('L', size, color)` (lines 16-18): a uniform plane. -/
def newL (size : Nat × Nat) (color : Nat) : Channel :=
  ⟨size.1, size.2, List.replicate (size.1 * size.2) color⟩

/-- Pointwise combination of four planes, truncating at the shortest. -/
def zipWith4 {α β γ δ ε : Type} (f : α → β → γ → δ → ε) :
    List α → List β → List γ → List δ → List ε
  | x :: xs, y :: ys, z :: zs, w :: ws => f x y z w :: zipWith4 f xs ys zs ws
  | _, _, _, _ => []

/-- `Image.merge('RGBA', (r, g, b, a))` (line 21): recombine four planes into
an RGBA image (PIL requires the four planes to have equal sizes; the script
always passes planes of the source image's size). -/
def mergeRGBA (r g b a : Channel) : PILImage :=
  ⟨r.width, r.height, zipWith4 RGBA.mk r.data g.data b.data a.data⟩

/-- Lines 9-21 of the script: split the image, discard r/g/b, build three
uniform planes at the target color, and merge them with the original alpha. -/
def applyGreenTint (img : PILImage) : PILImage :=
  let a := (PILImage.split img).2.2.2
  let new_r := newL img.size target_r
  let new_g := newL img.size target_g
  let new_b := newL img.size target_b
  mergeRGBA new_r new_g new_b a

/-- A 3-channel (no alpha) pixel. -/
structure RGBPixel where
  r : Nat
  g : Nat
  b : Nat
  deriving DecidableEq

/-- A 3-channel image, as decoded from a file with no alpha channel. -/
structure RGBImage where
  width : Nat
  height : Nat
  pixels : List RGBPixel
  deriving DecidableEq

/-- `convert('RGBA')` applied to a 3-channel image (line 6): keep the color
channels and fill the new alpha channel with 255 (fully opaque). -/
def RGBImage.convert (m : RGBImage) : PILImage :=
  ⟨m.width, m.height, m.pixels.map (fun p => ⟨p.r, p.g, p.b, 255⟩)⟩

theorem zipWith4_mk_replicate (n c1 c2 c3 : Nat) (l : List Nat) :
    zipWith4 RGBA.mk (List.replicate n c1) (List.replicate n c2)
      (List.replicate n c3) l
      = (l.take n).map (fun w => RGBA.mk c1 c2 c3 w) := by
  induction n generalizing l with
  | zero => simp [zipWith4]
  | succ n ih =>
    cases l with
    | nil => simp [zipWith4, List.replicate_succ]
    | cons w ws => simp [zipWith4, List.replicate_succ, ih]

/-- Closed form of the recoloring: the output keeps the input's dimensions and
carries, for each of the first width*height input pixels, the pixel
(target_r, target_g, target_b, original alpha). -/
theorem applyGreenTint_eq (img : PILImage) :
    applyGreenTint img
      = ⟨img.width, img.height,
         ((img.pixels.map RGBA.a).take (img.width * img.height)).map
           (fun w => RGBA.mk target_r target_g target_b w)⟩ := by
  simp [applyGreenTint, PILImage.split, PILImage.size, newL, mergeRGBA,
    zipWith4_mk_replicate]

/-- Raster format inferred by `save` from the path's extension: `.png` at
line 24, `.ico` at line 29. -/
inductive ImageFormat where
  | png
  | ico
  deriving DecidableEq

/-- What a file at some path decodes to: a 3-channel image, a saved RGBA
image, or something `Image.open` fails on. -/
inductive FileContent where
  | rgbFile (m : RGBImage)
  | rgbaFile (fmt : ImageFormat) (m : PILImage)
  | undecodable
  deriving DecidableEq

/-- The filesystem, abstracted as an association list from paths to file
contents; a `write` shadows earlier entries for the same path. -/
abbrev FS := List (String × FileContent)

/-- Look up the current content at a path (the most recent write wins). -/
def FS.lookup : FS → String → Option FileContent
  | [], _ => none
  | (q, c) :: rest, p => if q = p then some c else FS.lookup rest p

/-- Overwrite the file at a path. -/
def FS.write (fs : FS) (p : String) (c : FileContent) : FS :=
  (p, c) :: fs

/-- `Image.open(p).convert('RGBA')` (line 6) as a whole: decoding the current
content of the file at `p`.  PNG and ICO both store the RGBA pixel data
losslessly for the images this script produces, so a saved RGBA file decodes
back to the image that was saved; a 3-channel file decodes to its opaque
RGBA conversion; a missing or undecodable file yields `none` (in the script,
an exception). -/
def decodeRGBA : FileContent → Option PILImage
  | .rgbFile m => some m.convert
  | .rgbaFile _ m => some m
  | .undecodable => none

/-- Line 6 of the script on an arbitrary filesystem. -/
def openConvertRGBA (fs : FS) (p : String) : Option PILImage :=
  (fs.lookup p).bind decodeRGBA

/-- Line 5: the hardcoded input/raster-output path. -/
def icon_path : String := "c:\\Users\\yonat\\repos\\timer\\build-resources\\icon.png"

/-- Line 28: the hardcoded `.ico` output path. -/
def ico_path : String := "c:\\Users\\yonat\\repos\\timer\\build-resources\\icon.ico"

/-- Line 25: first confirmation line. -/
def msg1 : String := "✓ Icon PNG updated with green color (08CB00) - transparency preserved"

/-- Line 30: second confirmation line. -/
def msg2 : String := "✓ Icon converted to ICO format"

/-- The environment a run executes in: the initial filesystem and which
paths are writable (a non-writable path makes `save` raise). -/
structure ScriptEnv where
  fs : FS
  canWrite : String → Bool

/-- The observable steps of the script, in source order. -/
inductive Ev where
  | load
  | recolor
  | saveRaster
  | saveIco
  deriving DecidableEq

/-- Final state of one run: the filesystem, everything the script itself
printed, the steps that completed, and whether the run reached the end. -/
structure RunState where
  fs : FS
  stdout : List String
  trace : List Ev
  ok : Bool
  deriving DecidableEq

/-- The trace of a fully successful run. -/
def fullTrace : List Ev := [.load, .recolor, .saveRaster, .saveIco]

/-- The whole script (lines 6-30): open and convert the image at
`icon_path`; recolor it; save it back to `icon_path` as PNG and print the
first confirmation; save it to `ico_path` as ICO and print the second
confirmation.  A failing step aborts the run: later steps do not execute
and nothing further is printed. -/
def runScript (env : ScriptEnv) : RunState :=
  match openConvertRGBA env.fs icon_path with
  | none => ⟨env.fs, [], [], false⟩
  | some img =>
    let result := applyGreenTint img
    if env.canWrite icon_path then
      let fs1 := env.fs.write icon_path (.rgbaFile .png result)
      if env.canWrite ico_path then
        ⟨fs1.write ico_path (.rgbaFile .ico result), [msg1, msg2],
         [.load, .recolor, .saveRaster, .saveIco], true⟩
      else
        ⟨fs1, [msg1], [.load, .recolor, .saveRaster], false⟩
    else
      ⟨env.fs, [], [.load, .recolor], false⟩

/-- A 1×1 sample image used to instantiate hypotheses of proved theorems. -/
def img0 : PILImage := ⟨1, 1, [⟨10, 20, 30, 40⟩]⟩

/-- The pixel `applyGreenTint img0` produces. -/
def px0 : RGBA := ⟨8, 203, 0, 40⟩

/-- C1: every pixel of the recolored image has R, G, B exactly equal to the
compile-time constant (8, 203, 0), whatever the input pixel's colors were. -/
theorem output_rgb_is_target (img : PILImage) (p : RGBA)
    (hp : p ∈ (applyGreenTint img).pixels) :
    p.r = 8 ∧ p.g = 203 ∧ p.b = 0 := by
  rw [applyGreenTint_eq] at hp
  simp only [List.mem_map] at hp
  obtain ⟨w, _, rfl⟩ := hp
  exact ⟨rfl, rfl, rfl⟩

theorem output_rgb_is_target_witness :
    px0 ∈ (applyGreenTint img0).pixels ∧
      (px0.r = 8 ∧ px0.g = 203 ∧ px0.b = 0) :=
  ⟨by decide, output_rgb_is_target img0 px0 (by decide)⟩

/-- C2: for a well-formed input image the output has the same width, the same
height, and pixel-for-pixel the same alpha channel; only R, G, B change. -/
theorem dims_and_alpha_preserved (img : PILImage) (h : img.Wf) :
    (applyGreenTint img).width = img.width ∧
    (applyGreenTint img).height = img.height ∧
    (applyGreenTint img).pixels.map RGBA.a = img.pixels.map RGBA.a := by
  rw [applyGreenTint_eq]
  refine ⟨rfl, rfl, ?_⟩
  have hlen : (img.pixels.map RGBA.a).length = img.width * img.height := by
    simpa using h
  rw [List.take_of_length_le hlen.le, List.map_map]
  simp [Function.comp]

theorem dims_and_alpha_preserved_witness :
    img0.Wf ∧
      ((applyGreenTint img0).width = img0.width ∧
       (applyGreenTint img0).height = img0.height ∧
       (applyGreenTint img0).pixels.map RGBA.a = img0.pixels.map RGBA.a) :=
  ⟨by decide, dims_and_alpha_preserved img0 (by decide)⟩

theorem map_a_map_mk (l : List Nat) (c1 c2 c3 : Nat) :
    (l.map (fun w => RGBA.mk c1 c2 c3 w)).map RGBA.a = l := by
  induction l with
  | nil => rfl
  | cons w ws ih => simp [ih]

/-- C3: the recoloring is idempotent — applied to its own output it returns
that output unchanged (same dimensions, same RGBA value at every pixel). -/
theorem recolor_idempotent (img : PILImage) :
    applyGreenTint (applyGreenTint img) = applyGreenTint img := by
  rw [applyGreenTint_eq img, applyGreenTint_eq]
  simp only [map_a_map_mk, List.take_take, Nat.min_self]

/-- C9: noninterference of color content — two inputs with the same
dimensions and identical alpha channels produce identical outputs, whatever
their R, G, B contents; the output depends only on dimensions and alpha. -/
theorem recolor_noninterference (m1 m2 : PILImage) (hw : m1.width = m2.width)
    (hh : m1.height = m2.height)
    (ha : m1.pixels.map RGBA.a = m2.pixels.map RGBA.a) :
    applyGreenTint m1 = applyGreenTint m2 := by
  rw [applyGreenTint_eq, applyGreenTint_eq, hw, hh, ha]

/-- A second 1×1 image: same alpha as `img0`, different colors. -/
def img1 : PILImage := ⟨1, 1, [⟨200, 100, 50, 40⟩]⟩

theorem recolor_noninterference_witness :
    (img0.width = img1.width ∧ img0.height = img1.height ∧
     img0.pixels.map RGBA.a = img1.pixels.map RGBA.a) ∧
      applyGreenTint img0 = applyGreenTint img1 :=
  ⟨by decide, recolor_noninterference img0 img1 (by decide) (by decide) (by decide)⟩

/-- C4: for a 3-channel input, after `convert('RGBA')` the output image's
alpha channel is 255 at every pixel. -/
theorem converted_output_alpha_opaque (m : RGBImage) (p : RGBA)
    (hp : p ∈ (applyGreenTint m.convert).pixels) : p.a = 255 := by
  rw [applyGreenTint_eq] at hp
  simp only [RGBImage.convert, List.map_map, List.mem_map, Function.comp] at hp
  obtain ⟨w, hw, rfl⟩ := hp
  have hmem : w ∈ m.pixels.map (fun _ => (255 : Nat)) :=
    List.take_subset _ _ hw
  simp only [List.mem_map] at hmem
  obtain ⟨q, _, hq⟩ := hmem
  exact hq ▸ rfl

/-- A 1×1 three-channel image. -/
def rgb0 : RGBImage := ⟨1, 1, [⟨10, 20, 30⟩]⟩

/-- The pixel `applyGreenTint rgb0.convert` produces. -/
def px1 : RGBA := ⟨8, 203, 0, 255⟩

theorem converted_output_alpha_opaque_witness :
    px1 ∈ (applyGreenTint rgb0.convert).pixels ∧ px1.a = 255 :=
  ⟨by decide, converted_output_alpha_opaque rgb0 px1 (by decide)⟩

/-- C5: if opening/decoding the input fails, the run writes nothing — the
filesystem is untouched, in particular both output paths, and the script
prints nothing. -/
theorem failed_load_writes_nothing (env : ScriptEnv)
    (h : openConvertRGBA env.fs icon_path = none) :
    (runScript env).fs = env.fs ∧ (runScript env).stdout = [] ∧
    (runScript env).fs.lookup icon_path = env.fs.lookup icon_path ∧
    (runScript env).fs.lookup ico_path = env.fs.lookup ico_path := by
  simp [runScript, h]

/-- An environment whose input file exists but is not a decodable image. -/
def cenv5 : ScriptEnv := ⟨[(icon_path, FileContent.undecodable)], fun _ => true⟩

theorem failed_load_writes_nothing_witness :
    openConvertRGBA cenv5.fs icon_path = none ∧
      ((runScript cenv5).fs = cenv5.fs ∧ (runScript cenv5).stdout = [] ∧
       (runScript cenv5).fs.lookup icon_path = cenv5.fs.lookup icon_path ∧
       (runScript cenv5).fs.lookup ico_path = cenv5.fs.lookup ico_path) :=
  ⟨by decide, failed_load_writes_nothing cenv5 (by decide)⟩

/-- C6: after a successful run, decoding the `.ico` output yields exactly the
pixel data of the raster output at the original path, and both decode. -/
theorem ico_output_matches_raster_output (env : ScriptEnv)
    (h : (runScript env).ok = true) :
    ((runScript env).fs.lookup ico_path).bind decodeRGBA
      = ((runScript env).fs.lookup icon_path).bind decodeRGBA ∧
    ((runScript env).fs.lookup icon_path).bind decodeRGBA ≠ none := by
  have hne : ico_path ≠ icon_path := by decide
  cases ho : openConvertRGBA env.fs icon_path with
  | none => simp [runScript, ho] at h
  | some img =>
    cases h1 : env.canWrite icon_path with
    | false => simp [runScript, ho, h1] at h
    | true =>
      cases h2 : env.canWrite ico_path with
      | false => simp [runScript, ho, h1, h2] at h
      | true =>
        simp [runScript, ho, h1, h2, FS.write, FS.lookup, decodeRGBA, hne]

/-- An environment with a decodable RGBA input and both paths writable. -/
def cenv6 : ScriptEnv := ⟨[(icon_path, FileContent.rgbaFile .png img0)], fun _ => true⟩

theorem ico_output_matches_raster_output_witness :
    (runScript cenv6).ok = true ∧
      (((runScript cenv6).fs.lookup ico_path).bind decodeRGBA
          = ((runScript cenv6).fs.lookup icon_path).bind decodeRGBA ∧
       ((runScript cenv6).fs.lookup icon_path).bind decodeRGBA ≠ none) :=
  ⟨by decide, ico_output_matches_raster_output cenv6 (by decide)⟩

/-- C7: every run's completed-step trace is a prefix of the fixed sequence
load, recolor, save raster, save ico — there is no branching or looping and
a failure executes no later step — and the run succeeds exactly when the
whole sequence ran. -/
theorem script_step_order (env : ScriptEnv) :
    (∃ n, (runScript env).trace = fullTrace.take n) ∧
    ((runScript env).ok = true ↔ (runScript env).trace = fullTrace) := by
  cases ho : openConvertRGBA env.fs icon_path with
  | none => refine ⟨⟨0, ?_⟩, ?_⟩ <;> simp [runScript, ho, fullTrace]
  | some img =>
    cases h1 : env.canWrite icon_path with
    | false => refine ⟨⟨2, ?_⟩, ?_⟩ <;> simp [runScript, ho, h1, fullTrace]
    | true =>
      cases h2 : env.canWrite ico_path with
      | false => refine ⟨⟨3, ?_⟩, ?_⟩ <;> simp [runScript, ho, h1, h2, fullTrace]
      | true => refine ⟨⟨4, ?_⟩, ?_⟩ <;> simp [runScript, ho, h1, h2, fullTrace]

/-- An environment where the raster save succeeds but the `.ico` save fails:
only `ico_path` is unwritable. -/
def cenv8 : ScriptEnv :=
  ⟨[(icon_path, FileContent.rgbaFile .png img0)], fun p => !(p == ico_path)⟩

/-- C8 fails as stated: here the run fails (the `.ico` save), yet the script
has already printed the first confirmation line, so a failing run is not
silent. -/
theorem failing_run_can_have_printed : (runScript cenv8).ok = false ∧
    (runScript cenv8).stdout ≠ [] := by
  refine ⟨by decide, by decide⟩

/-- C8, amended: the printed lines are exactly the confirmation lines of the
saves that completed — nothing is printed at or after a failure, and the run
is fully successful exactly when both confirmation lines were printed. -/
theorem prints_follow_saves (env : ScriptEnv) :
    (runScript env).stdout
        = (if Ev.saveRaster ∈ (runScript env).trace then [msg1] else [])
          ++ (if Ev.saveIco ∈ (runScript env).trace then [msg2] else []) ∧
    ((runScript env).ok = true ↔ (runScript env).stdout = [msg1, msg2]) := by
  have hmsg : msg2 ≠ msg1 := by decide
  cases ho : openConvertRGBA env.fs icon_path with
  | none => simp [runScript, ho]
  | some img =>
    cases h1 : env.canWrite icon_path with
    | false => simp [runScript, ho, h1]
    | true =>
      cases h2 : env.canWrite ico_path with
      | false => simp [runScript, ho, h1, h2, hmsg]
      | true => simp [runScript, ho, h1, h2]

/-- C10: when the raster save succeeds and the `.ico` save then fails, the
run aborts with the original file already overwritten in place by the
recolored image — the final filesystem is exactly the initial one with
`icon_path` replaced, so no backup of the original content exists
anywhere. -/
theorem ico_failure_after_raster_overwrite (env : ScriptEnv) (img : PILImage)
    (h : openConvertRGBA env.fs icon_path = some img)
    (h1 : env.canWrite icon_path = true)
    (h2 : env.canWrite ico_path = false) :
    (runScript env).ok = false ∧
    (runScript env).fs
      = env.fs.write icon_path (.rgbaFile .png (applyGreenTint img)) ∧
    (runScript env).fs.lookup icon_path
      = some (.rgbaFile .png (applyGreenTint img)) := by
  simp [runScript, h, h1, h2, FS.write, FS.lookup]

/-- Like `cenv8` but with a different stored image, for the C10 witness. -/
def cenv10 : ScriptEnv :=
  ⟨[(icon_path, FileContent.rgbaFile .png img1)], fun p => !(p == ico_path)⟩

theorem ico_failure_after_raster_overwrite_witness :
    openConvertRGBA cenv10.fs icon_path = some img1 ∧
    cenv10.canWrite icon_path = true ∧
    cenv10.canWrite ico_path = false ∧
    ((runScript cenv10).ok = false ∧
     (runScript cenv10).fs
       = cenv10.fs.write icon_path (.rgbaFile .png (applyGreenTint img1)) ∧
     (runScript cenv10).fs.lookup icon_path
       = some (.rgbaFile .png (applyGreenTint img1))) :=
  ⟨by decide, by decide, by decide,
   ico_failure_after_raster_overwrite cenv10 img1 (by decide) (by decide) (by decide)⟩

end GreenTint
